import Mathlib

/-!
Verification of the ntpd-rs core against its specification.

This file gives a shallow embedding, in Lean 4, of the parts of the
ntpd-rs source tree that the verified claims are about:

* `ntp-proto/src/packet.rs` — the 48-byte NTPv4 header codec
  (`NtpHeader.deserialize` / `NtpHeader.serialize`, kiss-code tests);
* `ntp-proto/src/clock.rs` — the clock controller state machine
  (`ClockController.update`, `do_step`, `offset_too_large`);
* `ntp-daemon/src/peer.rs` — datagram acceptance (`accept_packet`);
* `ntp-daemon/src/system.rs` — coordinator peer-table update
  (`Peers.update`) and system-snapshot publication;
* `ntp-proto/src/algorithm/kalman/combine_with_pps.rs` — the PPS
  fusion helper (`combine_with_pps`, `combine_sources`).

Machine integers are embedded as `Nat`/`Int` with explicit `% 2^w`
where wrap-around matters.  Rust shift-and-mask byte extraction
`(x >> k) & 0xff` is written as the arithmetically equal `x / 2^k % 256`.
Stateful methods become explicit state passing; clock-capability calls
are recorded as an explicit trace of `ClockCall` events; Rust panics
(`unwrap`, `assert!`, `unreachable!`) become `Option` with `none`
for the panicking outcome.
-/

/-! ## Packet codec: `ntp-proto/src/packet.rs` -/

inductive NtpLeapIndicator where
  | NoWarning
  | Leap61
  | Leap59
  | Unknown
deriving DecidableEq, Repr

namespace NtpLeapIndicator

/-- Source `NtpLeapIndicator::from_bits`.  The source matches the two-bit
values 0..3 and marks larger inputs unreachable (the parser masks its
argument to two bits); the unreachable arm is collapsed into `Unknown`. -/
def from_bits (bits : Nat) : NtpLeapIndicator :=
  match bits with
  | 0 => .NoWarning
  | 1 => .Leap61
  | 2 => .Leap59
  | _ => .Unknown

/-- Source `NtpLeapIndicator::to_bits`. -/
def to_bits : NtpLeapIndicator → Nat
  | .NoWarning => 0
  | .Leap61 => 1
  | .Leap59 => 2
  | .Unknown => 3

end NtpLeapIndicator

inductive NtpAssociationMode where
  | Reserved
  | SymmetricActive
  | SymmetricPassive
  | Client
  | Server
  | Broadcast
  | Control
  | Private
deriving DecidableEq, Repr

namespace NtpAssociationMode

/-- Source `NtpAssociationMode::from_bits`.  The source matches the
three-bit values 0..7 and marks larger inputs unreachable (the parser
masks its argument to three bits); the unreachable arm is collapsed
into `Private`. -/
def from_bits (bits : Nat) : NtpAssociationMode :=
  match bits with
  | 0 => .Reserved
  | 1 => .SymmetricActive
  | 2 => .SymmetricPassive
  | 3 => .Client
  | 4 => .Server
  | 5 => .Broadcast
  | 6 => .Control
  | _ => .Private

/-- Source `NtpAssociationMode::to_bits`. -/
def to_bits : NtpAssociationMode → Nat
  | .Reserved => 0
  | .SymmetricActive => 1
  | .SymmetricPassive => 2
  | .Client => 3
  | .Server => 4
  | .Broadcast => 5
  | .Control => 6
  | .Private => 7

end NtpAssociationMode

/-- Big-endian 32-bit value of four bytes (`u32::from_be_bytes`). -/
def u32_from_be (b0 b1 b2 b3 : Nat) : Nat :=
  b0 * 2 ^ 24 + b1 * 2 ^ 16 + b2 * 2 ^ 8 + b3

/-- Big-endian byte list of a 32-bit value (`u32::to_be_bytes`);
byte `k` is `(x >> (24 - 8k)) & 0xff`, written with `/` and `%`. -/
def u32_to_be (x : Nat) : List Nat :=
  [x / 2 ^ 24 % 256, x / 2 ^ 16 % 256, x / 2 ^ 8 % 256, x % 256]

/-- Big-endian 64-bit value of eight bytes (`u64::from_be_bytes`). -/
def u64_from_be (b0 b1 b2 b3 b4 b5 b6 b7 : Nat) : Nat :=
  b0 * 2 ^ 56 + b1 * 2 ^ 48 + b2 * 2 ^ 40 + b3 * 2 ^ 32 +
    b4 * 2 ^ 24 + b5 * 2 ^ 16 + b6 * 2 ^ 8 + b7

/-- Big-endian byte list of a 64-bit value (`u64::to_be_bytes`). -/
def u64_to_be (x : Nat) : List Nat :=
  [x / 2 ^ 56 % 256, x / 2 ^ 48 % 256, x / 2 ^ 40 % 256, x / 2 ^ 32 % 256,
   x / 2 ^ 24 % 256, x / 2 ^ 16 % 256, x / 2 ^ 8 % 256, x % 256]

/-- Reinterpretation of a `u8` as an `i8` (Rust `as i8`). -/
def u8_as_i8 (n : Nat) : Int :=
  if n % 256 < 128 then (n % 256 : Nat) else (n % 256 : Nat) - 256

/-- Reinterpretation of an `i8` as a `u8` (Rust `as u8`). -/
def i8_as_u8 (x : Int) : Nat :=
  (x % 256).toNat

/-- Modelled from the spec: `NtpTimestamp` is a 64-bit fixed-point value
(upper 32 bits seconds, lower 32 bits fraction); `NtpTimestamp::from_bits`
reads it from eight network-byte-order bytes.  The defining module
(`time_types.rs`) is not part of the provided sources. -/
def NtpTimestamp.from_bits (b0 b1 b2 b3 b4 b5 b6 b7 : Nat) : Nat :=
  u64_from_be b0 b1 b2 b3 b4 b5 b6 b7

/-- Modelled from the spec: `NtpTimestamp::to_bits` writes the 64-bit
fixed-point value as eight network-byte-order bytes.  The defining module
(`time_types.rs`) is not part of the provided sources. -/
def NtpTimestamp.to_bits (x : Nat) : List Nat :=
  u64_to_be x

/-- Modelled from the spec: `NtpDuration` is a signed 64-bit fixed-point
value with a 32-bit fraction; the on-wire "short" format (root delay and
root dispersion) is a 32-bit 16.16 fixed point, so
`NtpDuration::from_bits_short` places the 32-bit network-byte-order value
in the middle of the 64-bit duration (shift left by 16).  The defining
module (`time_types.rs`) is not part of the provided sources. -/
def NtpDuration.from_bits_short (b0 b1 b2 b3 : Nat) : Int :=
  (u32_from_be b0 b1 b2 b3 : Nat) * 2 ^ 16

/-- Modelled from the spec: `NtpDuration::to_bits_short` writes the middle
32 bits (16.16) of the nonnegative 64-bit fixed-point duration as four
network-byte-order bytes.  The defining module (`time_types.rs`) is not
part of the provided sources. -/
def NtpDuration.to_bits_short (d : Int) : List Nat :=
  u32_to_be (d.toNat / 2 ^ 16 % 2 ^ 32)

structure NtpHeader where
  leap : NtpLeapIndicator
  version : Nat
  mode : NtpAssociationMode
  stratum : Nat
  poll : Int
  precision : Int
  root_delay : Int
  root_dispersion : Int
  reference_id : Nat
  reference_timestamp : Nat
  origin_timestamp : Nat
  receive_timestamp : Nat
  transmit_timestamp : Nat
deriving DecidableEq, Repr

/-- Source constant `KISS_DENY = 0x44454E59`. -/
def KISS_DENY : Nat := 0x44454E59

/-- Source constant `KISS_RSTR = 0x52535452`. -/
def KISS_RSTR : Nat := 0x52535452

/-- Source constant `KISS_RATE = 0x52415444` (note: these bytes are the
ASCII string "RATD", not "RATE"; "RATE" would be 0x52415445). -/
def KISS_RATE : Nat := 0x52415444

namespace NtpHeader

/-- Source `NtpHeader::deserialize` over a 48-byte buffer, represented as
a `List Nat` read with `getD`; byte 0 unpacks `{leap:2, version:3, mode:3}`
via mask-and-shift, written as the equal `/`-`%` arithmetic. -/
def deserialize (data : List Nat) : NtpHeader :=
  { leap := NtpLeapIndicator.from_bits (data.getD 0 0 / 64 % 4)
    version := data.getD 0 0 / 8 % 8
    mode := NtpAssociationMode.from_bits (data.getD 0 0 % 8)
    stratum := data.getD 1 0
    poll := u8_as_i8 (data.getD 2 0)
    precision := u8_as_i8 (data.getD 3 0)
    root_delay :=
      NtpDuration.from_bits_short (data.getD 4 0) (data.getD 5 0)
        (data.getD 6 0) (data.getD 7 0)
    root_dispersion :=
      NtpDuration.from_bits_short (data.getD 8 0) (data.getD 9 0)
        (data.getD 10 0) (data.getD 11 0)
    reference_id :=
      u32_from_be (data.getD 12 0) (data.getD 13 0) (data.getD 14 0)
        (data.getD 15 0)
    reference_timestamp :=
      NtpTimestamp.from_bits (data.getD 16 0) (data.getD 17 0) (data.getD 18 0)
        (data.getD 19 0) (data.getD 20 0) (data.getD 21 0) (data.getD 22 0)
        (data.getD 23 0)
    origin_timestamp :=
      NtpTimestamp.from_bits (data.getD 24 0) (data.getD 25 0) (data.getD 26 0)
        (data.getD 27 0) (data.getD 28 0) (data.getD 29 0) (data.getD 30 0)
        (data.getD 31 0)
    receive_timestamp :=
      NtpTimestamp.from_bits (data.getD 32 0) (data.getD 33 0) (data.getD 34 0)
        (data.getD 35 0) (data.getD 36 0) (data.getD 37 0) (data.getD 38 0)
        (data.getD 39 0)
    transmit_timestamp :=
      NtpTimestamp.from_bits (data.getD 40 0) (data.getD 41 0) (data.getD 42 0)
        (data.getD 43 0) (data.getD 44 0) (data.getD 45 0) (data.getD 46 0)
        (data.getD 47 0) }

/-- Source `NtpHeader::serialize`.  The Rust function asserts
`version < 8` (a violated assertion aborts), so the embedding returns
`none` in that case; byte 0 packs
`(leap.to_bits() << 6) | ((version & 0x07) << 3) | mode.to_bits()`,
written as the equal sum of disjoint bit ranges. -/
def serialize (h : NtpHeader) : Option (List Nat) :=
  if h.version < 8 then
    some
      ([h.leap.to_bits * 64 + h.version % 8 * 8 + h.mode.to_bits,
        h.stratum,
        i8_as_u8 h.poll,
        i8_as_u8 h.precision] ++
       NtpDuration.to_bits_short h.root_delay ++
       NtpDuration.to_bits_short h.root_dispersion ++
       u32_to_be h.reference_id ++
       NtpTimestamp.to_bits h.reference_timestamp ++
       NtpTimestamp.to_bits h.origin_timestamp ++
       NtpTimestamp.to_bits h.receive_timestamp ++
       NtpTimestamp.to_bits h.transmit_timestamp)
  else
    none

/-- Source `NtpHeader::is_kiss`. -/
def is_kiss (h : NtpHeader) : Bool :=
  h.stratum == 0

/-- Source `NtpHeader::is_kiss_deny`. -/
def is_kiss_deny (h : NtpHeader) : Bool :=
  h.is_kiss && h.reference_id == KISS_DENY

/-- Source `NtpHeader::is_kiss_rstr`. -/
def is_kiss_rstr (h : NtpHeader) : Bool :=
  h.is_kiss && h.reference_id == KISS_RSTR

/-- Source `NtpHeader::is_kiss_rate`. -/
def is_kiss_rate (h : NtpHeader) : Bool :=
  h.is_kiss && h.reference_id == KISS_RATE

end NtpHeader

/-- Sample header with stratum 0 and a selectable reference id, used to
evaluate the kiss-code predicates at concrete inputs. -/
def kissHeader (refid : Nat) : NtpHeader :=
  { leap := .NoWarning
    version := 4
    mode := .Client
    stratum := 0
    poll := 0
    precision := 0
    root_delay := 0
    root_dispersion := 0
    reference_id := refid
    reference_timestamp := 0
    origin_timestamp := 0
    receive_timestamp := 0
    transmit_timestamp := 0 }

/-- C1: the packet codec recognizes the kiss-RATE code by comparing the
reference id against `KISS_RATE = 0x52415444`, whose bytes are ASCII
"RATD".  A stratum-0 header whose reference id is the big-endian ASCII
bytes "RATE" (0x52415445) is consequently NOT recognized by
`is_kiss_rate`, while the "RATD" id 0x52415444 is — contradicting both
the spec ("RATE") and the constant's own name. -/
theorem c1_kiss_rate_code_bug :
    NtpHeader.is_kiss_rate (kissHeader 0x52415445) = false ∧
      NtpHeader.is_kiss_rate (kissHeader 0x52415444) = true ∧
      (kissHeader 0x52415445).stratum = 0 ∧
      (kissHeader 0x52415444).stratum = 0 := by
  decide

/-! ## C2: codec round-trip -/

/-- Round-trip of the two-bit leap encoding used by byte 0. -/
theorem leap_to_from_bits (n : Nat) (h : n < 4) :
    (NtpLeapIndicator.from_bits n).to_bits = n := by
  interval_cases n <;> rfl

/-- Round-trip of the three-bit mode encoding used by byte 0. -/
theorem mode_to_from_bits (n : Nat) (h : n < 8) :
    (NtpAssociationMode.from_bits n).to_bits = n := by
  interval_cases n <;> rfl

/-- Re-packing byte 0 from its unpacked leap, version and mode fields
reconstructs the original byte. -/
theorem byte0_roundtrip (x : Nat) (h : x < 256) :
    (NtpLeapIndicator.from_bits (x / 64 % 4)).to_bits * 64 +
      x / 8 % 8 % 8 * 8 + (NtpAssociationMode.from_bits (x % 8)).to_bits = x := by
  rw [leap_to_from_bits _ (by omega), mode_to_from_bits _ (by omega)]
  omega

/-- Round-trip of the `u8` / `i8` reinterpretations used for the poll and
precision bytes. -/
theorem u8_i8_roundtrip (x : Nat) (h : x < 256) :
    i8_as_u8 (u8_as_i8 x) = x := by
  simp only [u8_as_i8, i8_as_u8]
  split <;> omega

/-- Round-trip of the big-endian 32-bit encoding (reference id). -/
theorem u32_roundtrip (b0 b1 b2 b3 : Nat) (h0 : b0 < 256) (h1 : b1 < 256)
    (h2 : b2 < 256) (h3 : b3 < 256) :
    u32_to_be (u32_from_be b0 b1 b2 b3) = [b0, b1, b2, b3] := by
  simp only [u32_to_be, u32_from_be, List.cons.injEq, and_true]
  refine ⟨?_, ?_, ?_, ?_⟩ <;> omega

/-- Round-trip of the 32-bit short fixed-point duration encoding (root
delay and root dispersion). -/
theorem short_duration_roundtrip (b0 b1 b2 b3 : Nat) (h0 : b0 < 256)
    (h1 : b1 < 256) (h2 : b2 < 256) (h3 : b3 < 256) :
    NtpDuration.to_bits_short (NtpDuration.from_bits_short b0 b1 b2 b3) =
      [b0, b1, b2, b3] := by
  simp only [NtpDuration.to_bits_short, NtpDuration.from_bits_short, u32_to_be,
    u32_from_be, List.cons.injEq, and_true]
  refine ⟨?_, ?_, ?_, ?_⟩ <;> omega

/-- Round-trip of the 64-bit timestamp encoding. -/
theorem timestamp_roundtrip (b0 b1 b2 b3 b4 b5 b6 b7 : Nat) (h0 : b0 < 256)
    (h1 : b1 < 256) (h2 : b2 < 256) (h3 : b3 < 256) (h4 : b4 < 256)
    (h5 : b5 < 256) (h6 : b6 < 256) (h7 : b7 < 256) :
    NtpTimestamp.to_bits (NtpTimestamp.from_bits b0 b1 b2 b3 b4 b5 b6 b7) =
      [b0, b1, b2, b3, b4, b5, b6, b7] := by
  simp only [NtpTimestamp.to_bits, NtpTimestamp.from_bits, u64_to_be,
    u64_from_be, List.cons.injEq, and_true]
  refine ⟨?_, ?_, ?_, ?_, ?_, ?_, ?_, ?_⟩ <;> omega

/-- Core of the C2 round-trip, stated over the 48 individual bytes. -/
theorem deserialize_serialize_bytes (x0 x1 x2 x3 x4 x5 x6 x7 x8 x9 x10 x11 x12 x13 x14 x15 x16 x17 x18 x19 x20 x21 x22 x23 x24 x25 x26 x27 x28 x29 x30 x31 x32 x33 x34 x35 x36 x37 x38 x39 x40 x41 x42 x43 x44 x45 x46 x47 : Nat)
    (h0 : x0 < 256) (h1 : x1 < 256) (h2 : x2 < 256) (h3 : x3 < 256) (h4 : x4 < 256) (h5 : x5 < 256) (h6 : x6 < 256) (h7 : x7 < 256) (h8 : x8 < 256) (h9 : x9 < 256) (h10 : x10 < 256) (h11 : x11 < 256) (h12 : x12 < 256) (h13 : x13 < 256) (h14 : x14 < 256) (h15 : x15 < 256) (h16 : x16 < 256) (h17 : x17 < 256) (h18 : x18 < 256) (h19 : x19 < 256) (h20 : x20 < 256) (h21 : x21 < 256) (h22 : x22 < 256) (h23 : x23 < 256) (h24 : x24 < 256) (h25 : x25 < 256) (h26 : x26 < 256) (h27 : x27 < 256) (h28 : x28 < 256) (h29 : x29 < 256) (h30 : x30 < 256) (h31 : x31 < 256) (h32 : x32 < 256) (h33 : x33 < 256) (h34 : x34 < 256) (h35 : x35 < 256) (h36 : x36 < 256) (h37 : x37 < 256) (h38 : x38 < 256) (h39 : x39 < 256) (h40 : x40 < 256) (h41 : x41 < 256) (h42 : x42 < 256) (h43 : x43 < 256) (h44 : x44 < 256) (h45 : x45 < 256) (h46 : x46 < 256) (h47 : x47 < 256) :
    (NtpHeader.deserialize [x0, x1, x2, x3, x4, x5, x6, x7, x8, x9, x10, x11, x12, x13, x14, x15, x16, x17, x18, x19, x20, x21, x22, x23, x24, x25, x26, x27, x28, x29, x30, x31, x32, x33, x34, x35, x36, x37, x38, x39, x40, x41, x42, x43, x44, x45, x46, x47]).serialize = some [x0, x1, x2, x3, x4, x5, x6, x7, x8, x9, x10, x11, x12, x13, x14, x15, x16, x17, x18, x19, x20, x21, x22, x23, x24, x25, x26, x27, x28, x29, x30, x31, x32, x33, x34, x35, x36, x37, x38, x39, x40, x41, x42, x43, x44, x45, x46, x47] := by
  simp only [NtpHeader.deserialize, NtpHeader.serialize, List.getD_cons_zero,
    List.getD_cons_succ]
  rw [if_pos (show x0 / 8 % 8 < 8 by omega)]
  refine congrArg some ?_
  rw [byte0_roundtrip x0 h0, u8_i8_roundtrip x2 h2, u8_i8_roundtrip x3 h3,
    short_duration_roundtrip x4 x5 x6 x7 h4 h5 h6 h7,
    short_duration_roundtrip x8 x9 x10 x11 h8 h9 h10 h11,
    u32_roundtrip x12 x13 x14 x15 h12 h13 h14 h15,
    timestamp_roundtrip x16 x17 x18 x19 x20 x21 x22 x23 h16 h17 h18 h19 h20 h21 h22 h23,
    timestamp_roundtrip x24 x25 x26 x27 x28 x29 x30 x31 h24 h25 h26 h27 h28 h29 h30 h31,
    timestamp_roundtrip x32 x33 x34 x35 x36 x37 x38 x39 h32 h33 h34 h35 h36 h37 h38 h39,
    timestamp_roundtrip x40 x41 x42 x43 x44 x45 x46 x47 h40 h41 h42 h43 h44 h45 h46 h47]
  rfl

/-- C2: for every 48-byte buffer whose version field (bits 3..5 of
byte 0) is below 8, serializing the deserialized header yields exactly
the original 48 bytes. -/
theorem c2_serialize_deserialize_roundtrip (b : List Nat)
    (hlen : b.length = 48) (hbytes : ∀ i < 48, b.getD i 0 < 256)
    (hver : b.getD 0 0 / 8 % 8 < 8) :
    (NtpHeader.deserialize b).serialize = some b := by
  clear hver
  rcases b with _ | ⟨x0, b⟩
  · simp at hlen
  rcases b with _ | ⟨x1, b⟩
  · simp at hlen
  rcases b with _ | ⟨x2, b⟩
  · simp at hlen
  rcases b with _ | ⟨x3, b⟩
  · simp at hlen
  rcases b with _ | ⟨x4, b⟩
  · simp at hlen
  rcases b with _ | ⟨x5, b⟩
  · simp at hlen
  rcases b with _ | ⟨x6, b⟩
  · simp at hlen
  rcases b with _ | ⟨x7, b⟩
  · simp at hlen
  rcases b with _ | ⟨x8, b⟩
  · simp at hlen
  rcases b with _ | ⟨x9, b⟩
  · simp at hlen
  rcases b with _ | ⟨x10, b⟩
  · simp at hlen
  rcases b with _ | ⟨x11, b⟩
  · simp at hlen
  rcases b with _ | ⟨x12, b⟩
  · simp at hlen
  rcases b with _ | ⟨x13, b⟩
  · simp at hlen
  rcases b with _ | ⟨x14, b⟩
  · simp at hlen
  rcases b with _ | ⟨x15, b⟩
  · simp at hlen
  rcases b with _ | ⟨x16, b⟩
  · simp at hlen
  rcases b with _ | ⟨x17, b⟩
  · simp at hlen
  rcases b with _ | ⟨x18, b⟩
  · simp at hlen
  rcases b with _ | ⟨x19, b⟩
  · simp at hlen
  rcases b with _ | ⟨x20, b⟩
  · simp at hlen
  rcases b with _ | ⟨x21, b⟩
  · simp at hlen
  rcases b with _ | ⟨x22, b⟩
  · simp at hlen
  rcases b with _ | ⟨x23, b⟩
  · simp at hlen
  rcases b with _ | ⟨x24, b⟩
  · simp at hlen
  rcases b with _ | ⟨x25, b⟩
  · simp at hlen
  rcases b with _ | ⟨x26, b⟩
  · simp at hlen
  rcases b with _ | ⟨x27, b⟩
  · simp at hlen
  rcases b with _ | ⟨x28, b⟩
  · simp at hlen
  rcases b with _ | ⟨x29, b⟩
  · simp at hlen
  rcases b with _ | ⟨x30, b⟩
  · simp at hlen
  rcases b with _ | ⟨x31, b⟩
  · simp at hlen
  rcases b with _ | ⟨x32, b⟩
  · simp at hlen
  rcases b with _ | ⟨x33, b⟩
  · simp at hlen
  rcases b with _ | ⟨x34, b⟩
  · simp at hlen
  rcases b with _ | ⟨x35, b⟩
  · simp at hlen
  rcases b with _ | ⟨x36, b⟩
  · simp at hlen
  rcases b with _ | ⟨x37, b⟩
  · simp at hlen
  rcases b with _ | ⟨x38, b⟩
  · simp at hlen
  rcases b with _ | ⟨x39, b⟩
  · simp at hlen
  rcases b with _ | ⟨x40, b⟩
  · simp at hlen
  rcases b with _ | ⟨x41, b⟩
  · simp at hlen
  rcases b with _ | ⟨x42, b⟩
  · simp at hlen
  rcases b with _ | ⟨x43, b⟩
  · simp at hlen
  rcases b with _ | ⟨x44, b⟩
  · simp at hlen
  rcases b with _ | ⟨x45, b⟩
  · simp at hlen
  rcases b with _ | ⟨x46, b⟩
  · simp at hlen
  rcases b with _ | ⟨x47, b⟩
  · simp at hlen
  rcases b with _ | ⟨x48, b⟩
  case cons => simp at hlen
  refine deserialize_serialize_bytes x0 x1 x2 x3 x4 x5 x6 x7 x8 x9 x10 x11 x12 x13 x14 x15 x16 x17 x18 x19 x20 x21 x22 x23 x24 x25 x26 x27 x28 x29 x30 x31 x32 x33 x34 x35 x36 x37 x38 x39 x40 x41 x42 x43 x44 x45 x46 x47
    (hbytes 0 (by omega)) (hbytes 1 (by omega)) (hbytes 2 (by omega)) (hbytes 3 (by omega)) (hbytes 4 (by omega)) (hbytes 5 (by omega)) (hbytes 6 (by omega)) (hbytes 7 (by omega))
    (hbytes 8 (by omega)) (hbytes 9 (by omega)) (hbytes 10 (by omega)) (hbytes 11 (by omega)) (hbytes 12 (by omega)) (hbytes 13 (by omega)) (hbytes 14 (by omega)) (hbytes 15 (by omega))
    (hbytes 16 (by omega)) (hbytes 17 (by omega)) (hbytes 18 (by omega)) (hbytes 19 (by omega)) (hbytes 20 (by omega)) (hbytes 21 (by omega)) (hbytes 22 (by omega)) (hbytes 23 (by omega))
    (hbytes 24 (by omega)) (hbytes 25 (by omega)) (hbytes 26 (by omega)) (hbytes 27 (by omega)) (hbytes 28 (by omega)) (hbytes 29 (by omega)) (hbytes 30 (by omega)) (hbytes 31 (by omega))
    (hbytes 32 (by omega)) (hbytes 33 (by omega)) (hbytes 34 (by omega)) (hbytes 35 (by omega)) (hbytes 36 (by omega)) (hbytes 37 (by omega)) (hbytes 38 (by omega)) (hbytes 39 (by omega))
    (hbytes 40 (by omega)) (hbytes 41 (by omega)) (hbytes 42 (by omega)) (hbytes 43 (by omega)) (hbytes 44 (by omega)) (hbytes 45 (by omega)) (hbytes 46 (by omega)) (hbytes 47 (by omega))

/-- Witness for C2 at the concrete all-zero 48-byte buffer. -/
theorem c2_serialize_deserialize_roundtrip_witness :
    (NtpHeader.deserialize (List.replicate 48 0)).serialize =
      some (List.replicate 48 0) :=
  c2_serialize_deserialize_roundtrip (List.replicate 48 0) (by decide)
    (by decide) (by decide)

/-! ## Clock controller: `ntp-proto/src/clock.rs` -/

inductive ClockState where
  | StartupBlank
  | StartupFreq
  | MeasureFreq
  | Spike
  | Sync
deriving DecidableEq, Repr

inductive ClockUpdateResult where
  | Ignore
  | Step
  | Slew
  | Panic
deriving DecidableEq, Repr

/-- Modelled from the spec: `PollInterval` (defined in the missing
`time_types.rs`) is an integer log2-seconds value in
[MIN_POLL, MAX_POLL] = [4, 17]; its minimum. -/
def PollInterval.MIN : Int := 4

/-- Modelled from the spec: the maximum poll interval exponent. -/
def PollInterval.MAX : Int := 17

/-- Modelled from the spec: `PollInterval::inc` adds 1, clamped to MAX. -/
def PollInterval.inc (p : Int) : Int := min (p + 1) PollInterval.MAX

/-- Modelled from the spec: `PollInterval::dec` subtracts 1, clamped to MIN. -/
def PollInterval.dec (p : Int) : Int := max (p - 1) PollInterval.MIN

/-- Modelled from the spec: `PollInterval::as_log` reads the log2 value. -/
def PollInterval.as_log (p : Int) : Int := p

/-- Modelled from the spec: `NtpDuration::ZERO` (`time_types.rs` is not in
the provided sources; durations are 64-bit fixed point with a 32-bit
fraction). -/
def NtpDuration.ZERO : Int := 0

/-- Modelled from the spec: `NtpDuration::STEP_THRESHOLD` is ≈128 ms,
i.e. 0.125 s = 2^29 in 32-bit-fraction fixed point. -/
def NtpDuration.STEP_THRESHOLD : Int := 2 ^ 29

/-- Modelled from the spec: `NtpDuration::PANIC_THRESHOLD` (configurable
per the spec; fixed here at 1800 s in fixed point — the claims proved
below need only that it exceeds `STEP_THRESHOLD`). -/
def NtpDuration.PANIC_THRESHOLD : Int := 1800 * 2 ^ 32

/-- Modelled from the spec: `NtpDuration::SPIKE_INTERVAL` is ≈900 s. -/
def NtpDuration.SPIKE_INTERVAL : Int := 900 * 2 ^ 32

/-- Modelled from the spec: `NtpInstant` is a monotonic timestamp whose
`abs_diff` yields an `NtpDuration`; embedded as fixed-point `Int`. -/
def NtpInstant.abs_diff (a b : Int) : Int := |a - b|

/-- State of `ClockController` (`ntp-proto/src/clock.rs`), minus the
clock capability, whose method invocations are recorded as a `ClockCall`
trace instead. -/
structure ClockController where
  state : ClockState
  last_update_time : Int
  preferred_poll_interval : Int
  poll_interval_counter : Int
  offset : Int
deriving DecidableEq, Repr

/-- One invocation of the clock capability made during `update`.  The
`set_freq` argument is computed in the source by a floating-point
division `offset.to_seconds() / elapsed.to_seconds()`; the embedding
records the two fixed-point arguments of that division instead. -/
inductive ClockCall where
  | set_freq (offset : Int) (elapsed : Int)
  | step_clock (offset : Int)
  | update_clock (offset : Int) (est_error : Int) (max_error : Int)
      (poll_interval : Int) (leap : NtpLeapIndicator)
deriving DecidableEq, Repr

namespace ClockController

/-- Source constant `POLL_FACTOR = 4`. -/
def POLL_FACTOR : Int := 4

/-- Source constant `POLL_ADJUST = 30`. -/
def POLL_ADJUST : Int := 30

/-- Source `ClockController::offset_too_large`. -/
def offset_too_large (c : ClockController) (offset : Int) : Bool :=
  match c.state with
  | .StartupBlank => false
  | .StartupFreq => false
  | _ => decide (|offset| > NtpDuration.PANIC_THRESHOLD)

/-- Source `ClockController::do_step`: zero the hysteresis counter, reset
the preferred poll interval, step the clock by `offset`, clear the stored
offset, record the update instant, and move StartupBlank to MeasureFreq
(any other state to Sync). -/
def do_step (c : ClockController) (offset : Int) (last_peer_update : Int) :
    ClockController × ClockUpdateResult × List ClockCall :=
  ({ state := match c.state with
       | .StartupBlank => .MeasureFreq
       | _ => .Sync
     last_update_time := last_peer_update
     preferred_poll_interval := PollInterval.MIN
     poll_interval_counter := 0
     offset := NtpDuration.ZERO },
   .Step, [.step_clock offset])

/-- Source `ClockController::set_freq` (records the clock call; the
controller fields are unchanged by it). -/
def set_freq_call (c : ClockController) (offset : Int)
    (last_peer_update : Int) : ClockCall :=
  .set_freq offset (NtpInstant.abs_diff last_peer_update c.last_update_time)

/-- Tail of `ClockController::update` after the main match (source lines
following the small-offset branch): call `update_clock`, adjust the
hysteresis counter by ±`as_log`, then apply the two threshold checks, and
return `Slew`.  `pending` holds clock calls already made by the branch. -/
def slew_tail (c : ClockController) (jitter root_delay root_dispersion : Int)
    (leap_status : NtpLeapIndicator) (pending : List ClockCall) :
    ClockController × ClockUpdateResult × List ClockCall :=
  let call := ClockCall.update_clock c.offset jitter
    (Int.tdiv root_delay 2 + root_dispersion) c.preferred_poll_interval
    leap_status
  let counter1 :=
    if c.offset < jitter * POLL_FACTOR then
      c.poll_interval_counter + PollInterval.as_log c.preferred_poll_interval
    else
      c.poll_interval_counter - PollInterval.as_log c.preferred_poll_interval
  let c1 := { c with poll_interval_counter := counter1 }
  let c2 :=
    if c1.poll_interval_counter > POLL_ADJUST then
      { c1 with poll_interval_counter := 0,
                preferred_poll_interval := PollInterval.inc c1.preferred_poll_interval }
    else c1
  let c3 :=
    if c2.poll_interval_counter < -POLL_ADJUST then
      { c2 with poll_interval_counter := 0,
                preferred_poll_interval := PollInterval.dec c2.preferred_poll_interval }
    else c2
  (c3, .Slew, pending ++ [call])

/-- Source `ClockController::update`: the returned triple is the updated
controller, the result, and the trace of clock-capability calls made. -/
def update (c : ClockController) (offset jitter root_delay root_dispersion : Int)
    (leap_status : NtpLeapIndicator) (last_peer_update : Int) :
    ClockController × ClockUpdateResult × List ClockCall :=
  if c.offset_too_large offset then
    (c, .Panic, [])
  else if |offset| > NtpDuration.STEP_THRESHOLD then
    match c.state with
    | .Sync => ({ c with state := .Spike }, .Ignore, [])
    | .MeasureFreq =>
      if NtpInstant.abs_diff last_peer_update c.last_update_time <
          NtpDuration.SPIKE_INTERVAL then
        (c, .Ignore, [])
      else
        let fc := c.set_freq_call offset last_peer_update
        let s := c.do_step offset last_peer_update
        (s.1, s.2.1, fc :: s.2.2)
    | .Spike =>
      if NtpInstant.abs_diff last_peer_update c.last_update_time <
          NtpDuration.SPIKE_INTERVAL then
        (c, .Ignore, [])
      else
        c.do_step offset last_peer_update
    | .StartupBlank => c.do_step offset last_peer_update
    | .StartupFreq => c.do_step offset last_peer_update
  else
    match c.state with
    | .StartupBlank => c.do_step offset last_peer_update
    | .MeasureFreq =>
      if NtpInstant.abs_diff last_peer_update c.last_update_time <
          NtpDuration.SPIKE_INTERVAL then
        (c, .Ignore, [])
      else
        let fc := c.set_freq_call offset last_peer_update
        let c1 := { c with offset := offset, last_update_time := last_peer_update,
                           state := ClockState.Sync }
        c1.slew_tail jitter root_delay root_dispersion leap_status [fc]
    | _ =>
      let c1 := { c with offset := offset, last_update_time := last_peer_update,
                         state := ClockState.Sync }
      c1.slew_tail jitter root_delay root_dispersion leap_status []

end ClockController

/-! ## C3–C6: clock controller claims -/

/-- C3: with a large (but sub-panic) offset, an update in Sync moves the
controller to Spike and returns Ignore with no clock call; an update in
Spike whose measurement instant is at least SPIKE_INTERVAL after
`last_update_time` returns Step, steps the clock by the offset, resets
the preferred poll interval to MIN, and moves the state to Sync. -/
theorem c3_sync_spike_step (c : ClockController)
    (offset jitter root_delay root_dispersion : Int)
    (leap : NtpLeapIndicator) (t : Int)
    (hpanic : ¬ |offset| > NtpDuration.PANIC_THRESHOLD)
    (hstep : |offset| > NtpDuration.STEP_THRESHOLD) :
    (c.state = .Sync →
      c.update offset jitter root_delay root_dispersion leap t =
        ({ c with state := .Spike }, .Ignore, [])) ∧
    (c.state = .Spike →
      NtpDuration.SPIKE_INTERVAL ≤ NtpInstant.abs_diff t c.last_update_time →
      c.update offset jitter root_delay root_dispersion leap t =
        ({ state := .Sync, last_update_time := t,
           preferred_poll_interval := PollInterval.MIN,
           poll_interval_counter := 0, offset := NtpDuration.ZERO },
         .Step, [.step_clock offset])) := by
  obtain ⟨st, lu, ppi, cnt, off⟩ := c
  constructor
  · intro hs
    simp only at hs
    subst hs
    simp [ClockController.update, ClockController.offset_too_large, hpanic, hstep]
  · intro hs hlong
    simp only at hs
    subst hs
    simp only [ClockController.update, ClockController.offset_too_large,
      ClockController.do_step]
    rw [if_neg (by simpa using hpanic), if_pos hstep,
      if_neg (not_lt.mpr hlong)]

/-- Witness for C3 at concrete inputs: an offset of 2×STEP_THRESHOLD in
Sync at t = 1 s, and the same offset in Spike at t = 902 s. -/
theorem c3_sync_spike_step_witness :
    (ClockController.update ⟨.Sync, 0, 4, 0, 0⟩ (2 * NtpDuration.STEP_THRESHOLD)
        0 0 0 .NoWarning (1 * 2 ^ 32) =
      (⟨.Spike, 0, 4, 0, 0⟩, .Ignore, [])) ∧
    (ClockController.update ⟨.Spike, 0, 4, 0, 0⟩ (2 * NtpDuration.STEP_THRESHOLD)
        0 0 0 .NoWarning (902 * 2 ^ 32) =
      (⟨.Sync, 902 * 2 ^ 32, PollInterval.MIN, 0, NtpDuration.ZERO⟩, .Step,
        [.step_clock (2 * NtpDuration.STEP_THRESHOLD)])) := by
  constructor
  · exact (c3_sync_spike_step ⟨.Sync, 0, 4, 0, 0⟩ (2 * NtpDuration.STEP_THRESHOLD)
      0 0 0 .NoWarning (1 * 2 ^ 32) (by decide) (by decide)).1 rfl
  · exact (c3_sync_spike_step ⟨.Spike, 0, 4, 0, 0⟩ (2 * NtpDuration.STEP_THRESHOLD)
      0 0 0 .NoWarning (902 * 2 ^ 32) (by decide) (by decide)).2 rfl (by decide)

/-- C4: in StartupBlank every update — for every offset, including ones
beyond PANIC_THRESHOLD — returns Step (never Panic) and moves the state
to MeasureFreq. -/
theorem c4_startup_blank_steps (c : ClockController)
    (offset jitter root_delay root_dispersion : Int)
    (leap : NtpLeapIndicator) (t : Int)
    (hs : c.state = .StartupBlank) :
    c.update offset jitter root_delay root_dispersion leap t =
      ({ state := .MeasureFreq, last_update_time := t,
         preferred_poll_interval := PollInterval.MIN,
         poll_interval_counter := 0, offset := NtpDuration.ZERO },
       .Step, [.step_clock offset]) := by
  obtain ⟨st, lu, ppi, cnt, off⟩ := c
  simp only at hs
  subst hs
  by_cases h : |offset| > NtpDuration.STEP_THRESHOLD <;>
    simp [ClockController.update, ClockController.offset_too_large,
      ClockController.do_step, h]

/-- Witness for C4 at a concrete offset of 2×PANIC_THRESHOLD. -/
theorem c4_startup_blank_steps_witness :
    ClockController.update ⟨.StartupBlank, 0, 4, 0, 0⟩
        (2 * NtpDuration.PANIC_THRESHOLD) 0 0 0 .NoWarning (1 * 2 ^ 32) =
      (⟨.MeasureFreq, 1 * 2 ^ 32, PollInterval.MIN, 0, NtpDuration.ZERO⟩,
        .Step, [.step_clock (2 * NtpDuration.PANIC_THRESHOLD)]) :=
  c4_startup_blank_steps ⟨.StartupBlank, 0, 4, 0, 0⟩
    (2 * NtpDuration.PANIC_THRESHOLD) 0 0 0 .NoWarning (1 * 2 ^ 32) rfl

/-- C5: `update` returns Panic exactly when the state is neither
StartupBlank nor StartupFreq and the offset magnitude exceeds
PANIC_THRESHOLD; a Panic leaves the controller unchanged and makes no
clock call. -/
theorem c5_panic_iff (c : ClockController)
    (offset jitter root_delay root_dispersion : Int)
    (leap : NtpLeapIndicator) (t : Int) :
    ((c.update offset jitter root_delay root_dispersion leap t).2.1 = .Panic ↔
      (c.state ≠ .StartupBlank ∧ c.state ≠ .StartupFreq ∧
        |offset| > NtpDuration.PANIC_THRESHOLD)) ∧
    ((c.update offset jitter root_delay root_dispersion leap t).2.1 = .Panic →
      (c.update offset jitter root_delay root_dispersion leap t).1 = c ∧
        (c.update offset jitter root_delay root_dispersion leap t).2.2 = []) := by
  obtain ⟨st, lu, ppi, cnt, off⟩ := c
  rcases st <;>
    (simp only [ClockController.update, ClockController.offset_too_large,
      ClockController.do_step, ClockController.slew_tail,
      ClockController.set_freq_call] <;>
     split_ifs <;> simp_all)

/-- Witness for C5: a 2×PANIC_THRESHOLD offset in Sync panics and leaves
the controller untouched with no clock call. -/
theorem c5_panic_iff_witness :
    ((ClockController.update ⟨.Sync, 0, 4, 7, 0⟩ (2 * NtpDuration.PANIC_THRESHOLD)
        0 0 0 .NoWarning 1).2.1 = .Panic ↔
      ((ClockState.Sync ≠ .StartupBlank ∧ ClockState.Sync ≠ .StartupFreq ∧
        |2 * NtpDuration.PANIC_THRESHOLD| > NtpDuration.PANIC_THRESHOLD))) ∧
    ((ClockController.update ⟨.Sync, 0, 4, 7, 0⟩ (2 * NtpDuration.PANIC_THRESHOLD)
        0 0 0 .NoWarning 1).2.1 = .Panic →
      (ClockController.update ⟨.Sync, 0, 4, 7, 0⟩ (2 * NtpDuration.PANIC_THRESHOLD)
        0 0 0 .NoWarning 1).1 = ⟨.Sync, 0, 4, 7, 0⟩ ∧
      (ClockController.update ⟨.Sync, 0, 4, 7, 0⟩ (2 * NtpDuration.PANIC_THRESHOLD)
        0 0 0 .NoWarning 1).2.2 = []) :=
  c5_panic_iff ⟨.Sync, 0, 4, 7, 0⟩ (2 * NtpDuration.PANIC_THRESHOLD) 0 0 0
    .NoWarning 1

/-- C6: a Sync update with a small offset returns Slew; with `k` the
hysteresis counter after accumulating ±log2(poll) (+ when
offset < jitter × POLL_FACTOR, − otherwise), the preferred poll interval
moves up one step exactly when `k` crosses +POLL_ADJUST, down one step
exactly when it crosses −POLL_ADJUST — the counter resetting to 0 in both
cases — and is otherwise unchanged with the counter at `k`. -/
theorem c6_poll_hysteresis (c : ClockController)
    (offset jitter root_delay root_dispersion : Int)
    (leap : NtpLeapIndicator) (t k : Int)
    (hs : c.state = .Sync)
    (hsmall : ¬ |offset| > NtpDuration.STEP_THRESHOLD)
    (hk : k = if offset < jitter * ClockController.POLL_FACTOR then
        c.poll_interval_counter + PollInterval.as_log c.preferred_poll_interval
      else
        c.poll_interval_counter - PollInterval.as_log c.preferred_poll_interval) :
    (c.update offset jitter root_delay root_dispersion leap t).2.1 = .Slew ∧
    (k > ClockController.POLL_ADJUST →
      (c.update offset jitter root_delay root_dispersion leap t).1.preferred_poll_interval =
          PollInterval.inc c.preferred_poll_interval ∧
        (c.update offset jitter root_delay root_dispersion leap t).1.poll_interval_counter = 0) ∧
    (k < -ClockController.POLL_ADJUST →
      (c.update offset jitter root_delay root_dispersion leap t).1.preferred_poll_interval =
          PollInterval.dec c.preferred_poll_interval ∧
        (c.update offset jitter root_delay root_dispersion leap t).1.poll_interval_counter = 0) ∧
    (¬ k > ClockController.POLL_ADJUST → ¬ k < -ClockController.POLL_ADJUST →
      (c.update offset jitter root_delay root_dispersion leap t).1.preferred_poll_interval =
          c.preferred_poll_interval ∧
        (c.update offset jitter root_delay root_dispersion leap t).1.poll_interval_counter = k) := by
  obtain ⟨st, lu, ppi, cnt, off⟩ := c
  simp only at hs
  subst hs
  have hpanic : ¬ |offset| > NtpDuration.PANIC_THRESHOLD := by
    refine not_lt.mpr (le_trans (not_lt.mp hsmall) ?_)
    simp only [NtpDuration.STEP_THRESHOLD, NtpDuration.PANIC_THRESHOLD]
    norm_num
  simp only [ClockController.update, ClockController.offset_too_large,
    ClockController.slew_tail, ClockController.POLL_ADJUST,
    ClockController.POLL_FACTOR, PollInterval.as_log] at *
  rw [if_neg (by simpa using hpanic), if_neg hsmall]
  subst hk
  split_ifs <;> simp_all <;> omega

/-- Witness for C6 at a concrete Sync controller with counter 28 and poll
interval 4: the positive accumulation crosses +30, so the interval steps
up to 5 and the counter resets. -/
theorem c6_poll_hysteresis_witness :
    (ClockController.update ⟨.Sync, 0, 4, 28, 0⟩ 0 (2 ^ 32) 0 0 .NoWarning
        1).1.preferred_poll_interval = PollInterval.inc 4 ∧
      (ClockController.update ⟨.Sync, 0, 4, 28, 0⟩ 0 (2 ^ 32) 0 0 .NoWarning
        1).1.poll_interval_counter = 0 :=
  (c6_poll_hysteresis ⟨.Sync, 0, 4, 28, 0⟩ 0 (2 ^ 32) 0 0 .NoWarning 1 32 rfl
    (by decide) (by decide)).2.1 (by decide)

/-! ## Datagram acceptance: `ntp-daemon/src/peer.rs` -/

/-- Linux value of `libc::EHOSTDOWN`. -/
def EHOSTDOWN : Int := 112

/-- Linux value of `libc::EHOSTUNREACH`. -/
def EHOSTUNREACH : Int := 113

/-- Linux value of `libc::ENETDOWN`. -/
def ENETDOWN : Int := 100

/-- Linux value of `libc::ENETUNREACH`. -/
def ENETUNREACH : Int := 101

/-- Outcome of `socket.recv`: success carries the received size and an
optional kernel receive timestamp (the remote address, unused by
`accept_packet`, is elided); failure carries the I/O error's
`raw_os_error`. -/
inductive RecvResult where
  | ok (size : Nat) (recv_timestamp : Option Nat)
  | err (raw_os_error : Option Int)
deriving DecidableEq, Repr

/-- Source `AcceptResult` in `peer.rs`, parametric in the packet type. -/
inductive AcceptResult (P : Type) where
  | Accept (packet : P) (recv_timestamp : Nat)
  | Ignore
  | NetworkGone
deriving DecidableEq, Repr

/-- Source `accept_packet` in `peer.rs`.  `NtpPacket::deserialize` is
defined in a module that is not among the provided sources, so it is
passed in as a parameter `deser`; the source's errno match (four arms to
`NetworkGone`, wildcard to `Ignore`) is written as the equivalent
disjunction. -/
def accept_packet {P : Type} (deser : List Nat → Option P)
    (result : RecvResult) (buf : List Nat) : AcceptResult P :=
  match result with
  | .ok size (some recv_timestamp) =>
    if size < 48 then
      .Ignore
    else
      match deser buf with
      | some packet => .Accept packet recv_timestamp
      | none => .Ignore
  | .ok _ none => .Ignore
  | .err raw_os_error =>
    if raw_os_error = some EHOSTDOWN ∨ raw_os_error = some EHOSTUNREACH ∨
        raw_os_error = some ENETDOWN ∨ raw_os_error = some ENETUNREACH then
      .NetworkGone
    else
      .Ignore

/-- C7: every successfully received datagram shorter than 48 bytes is
ignored, as is any datagram without a kernel receive timestamp; a receive
error maps to NetworkGone exactly when its raw OS error is EHOSTDOWN,
EHOSTUNREACH, ENETDOWN or ENETUNREACH, and every other receive error is
ignored. -/
theorem c7_accept_packet_classification {P : Type}
    (deser : List Nat → Option P) (buf : List Nat) :
    (∀ size ts, size < 48 →
      accept_packet deser (.ok size (some ts)) buf = .Ignore) ∧
    (∀ size, accept_packet deser (.ok size none) buf = .Ignore) ∧
    (∀ raw, accept_packet deser (.err raw) buf = .NetworkGone ↔
      (raw = some EHOSTDOWN ∨ raw = some EHOSTUNREACH ∨
        raw = some ENETDOWN ∨ raw = some ENETUNREACH)) ∧
    (∀ raw, ¬(raw = some EHOSTDOWN ∨ raw = some EHOSTUNREACH ∨
        raw = some ENETDOWN ∨ raw = some ENETUNREACH) →
      accept_packet deser (.err raw) buf = .Ignore) := by
  refine ⟨?_, ?_, ?_, ?_⟩
  · intro size ts hsize
    simp [accept_packet, hsize]
  · intro size
    rfl
  · intro raw
    constructor
    · intro h
      by_contra hmem
      simp [accept_packet, hmem] at h
    · intro hmem
      simp [accept_packet, hmem]
  · intro raw hmem
    simp [accept_packet, hmem]

/-- Witness for C7 at concrete inputs: a 47-byte datagram with a
timestamp, a datagram without a timestamp, the EHOSTUNREACH error, and a
permission-denied error (EACCES = 13). -/
theorem c7_accept_packet_classification_witness :
    (accept_packet (fun _ => (none : Option Unit)) (.ok 47 (some 0)) [] =
      .Ignore) ∧
    (accept_packet (fun _ => (none : Option Unit)) (.ok 48 none) [] =
      .Ignore) ∧
    (accept_packet (fun _ => (none : Option Unit)) (.err (some 113)) [] =
      .NetworkGone) ∧
    (accept_packet (fun _ => (none : Option Unit)) (.err (some 13)) [] =
      .Ignore) := by
  have h := c7_accept_packet_classification (fun _ => (none : Option Unit)) []
  exact ⟨h.1 47 0 (by decide), h.2.1 48,
    (h.2.2.1 (some 113)).mpr (by decide), h.2.2.2 (some 13) (by decide)⟩

/-! ## Coordinator: `ntp-daemon/src/system.rs` -/

/-- Modelled from the spec: the attributes of `PeerSnapshot` (defined in
the ntp-proto peer module, which is not among the provided sources) that
the coordinator reads: reachability byte, stratum, leap, reference id. -/
structure PeerSnapshot where
  reach : Nat
  stratum : Nat
  leap : NtpLeapIndicator
  reference_id : Nat
deriving DecidableEq, Repr

/-- Modelled from the spec: `TimeSnapshot` carries the combined system
offset, jitter, root delay and root dispersion plus the leap indicator;
its defining module is not among the provided sources and the claims
below treat it as opaque data. -/
structure TimeSnapshot where
  offset : Int
  jitter : Int
  root_delay : Int
  root_dispersion : Int
  leap_indicator : NtpLeapIndicator
deriving DecidableEq, Repr

/-- Fields of `SystemSnapshot` written by `System::run` (the defining
module is not among the provided sources; the field set is modelled from
the spec and the writes in `system.rs`). -/
structure SystemSnapshot where
  time_snapshot : TimeSnapshot
  stratum : Nat
  reference_id : Nat
  accumulated_steps_threshold : Option Int
deriving DecidableEq, Repr

/-- Saturating `u8` addition (`u8::saturating_add`). -/
def u8_saturating_add (a b : Nat) : Nat :=
  min (a + b) 255

/-- Source `PeerAddress` in `system.rs` (addresses as opaque strings). -/
inductive PeerAddress where
  | Peer (address : String)
  | Pool (index : Nat) (address : String) (socket_address : String)
      (max_peers : Nat)
deriving DecidableEq, Repr

/-- Source `PeerState` in `system.rs`. -/
structure PeerState where
  snapshot : Option PeerSnapshot
  peer_address : PeerAddress
deriving DecidableEq, Repr

/-- Modelled from the spec: the `Measurement` handed from a peer to the
coordinator (offset and delay plus the two clock readings); its defining
module is not among the provided sources and `Peers::update` only passes
it through to the controller. -/
structure Measurement where
  delay : Int
  offset : Int
  localtime : Nat
  monotime : Int
deriving DecidableEq, Repr

/-- Modelled from the spec: the received `NtpPacket` forwarded with a
measurement; `Peers::update` only passes it through to the controller,
so it is kept as its raw bytes. -/
structure NtpPacket where
  raw : List Nat
deriving DecidableEq, Repr

/-- Source `MsgForSystem` in `peer.rs`. -/
inductive MsgForSystem where
  | MustDemobilize (index : Nat)
  | NetworkIssue (index : Nat)
  | NewMeasurement (index : Nat) (snapshot : PeerSnapshot)
      (measurement : Measurement) (packet : NtpPacket)
  | UpdatedSnapshot (index : Nat) (snapshot : PeerSnapshot)
deriving DecidableEq, Repr

/-- The `PeerIndex` carried by a message. -/
def MsgForSystem.index : MsgForSystem → Nat
  | .MustDemobilize i => i
  | .NetworkIssue i => i
  | .NewMeasurement i _ _ _ => i
  | .UpdatedSnapshot i _ => i

/-- Whether handling the message reads the peer-table entry through
`unwrap` (true for `NewMeasurement`, `UpdatedSnapshot` and
`NetworkIssue`; `MustDemobilize` only removes). -/
def MsgForSystem.requiresEntry : MsgForSystem → Bool
  | .MustDemobilize _ => false
  | .NetworkIssue _ => true
  | .NewMeasurement _ _ _ _ => true
  | .UpdatedSnapshot _ _ => true

/-- The peer index table `HashMap<PeerIndex, PeerState>`, embedded as an
association list keyed by the index. -/
def PeerTable := List (Nat × PeerState)

/-- Lookup in the peer table (`HashMap::get`). -/
def lookupPeer (peers : PeerTable) (i : Nat) : Option PeerState :=
  (List.find? (fun p => p.1 == i) peers).map Prod.snd

/-- Removal from the peer table (`HashMap::remove`, value discarded). -/
def removePeer (peers : PeerTable) (i : Nat) : PeerTable :=
  List.filter (fun p => p.1 != i) peers

/-- Store a snapshot for an index
(`self.peers.get_mut(&index).unwrap().snapshot = Some(snapshot)`). -/
def setSnapshot (peers : PeerTable) (i : Nat) (s : PeerSnapshot) : PeerTable :=
  List.map (fun p => if p.1 == i then (p.1, { p.2 with snapshot := some s }) else p)
    peers

/-- Source `Peers::peer_snapshot`. -/
def peer_snapshot (peers : PeerTable) (i : Nat) : Option PeerSnapshot :=
  (lookupPeer peers i).bind (fun data => data.snapshot)

/-- Source `Peers::update`.  The `DefaultTimeSyncController` is defined
outside the provided sources, so its `peer_measurement` result is passed
in as the oracle `controller_measurement`; its `peer_update` and
`peer_remove` calls mutate only that controller and have no effect on
the peer table modelled here, and the spawner calls in the
`NetworkIssue` arm only send on the spawn channel.  The outer `none`
models the panic of `unwrap` on a missing table entry. -/
def Peers.update
    (controller_measurement :
      Nat → Measurement → NtpPacket → Option (List Nat × TimeSnapshot))
    (peers : PeerTable) (msg : MsgForSystem) :
    Option (PeerTable × Option (List Nat × TimeSnapshot)) :=
  match msg with
  | .MustDemobilize index =>
    some (removePeer peers index, none)
  | .NewMeasurement index snapshot measurement packet =>
    match lookupPeer peers index with
    | none => none
    | some _ =>
      some (setSnapshot peers index snapshot,
        controller_measurement index measurement packet)
  | .UpdatedSnapshot index snapshot =>
    match lookupPeer peers index with
    | none => none
    | some _ => some (setSnapshot peers index snapshot, none)
  | .NetworkIssue index =>
    match lookupPeer peers index with
    | none => none
    | some _ => some (removePeer peers index, none)

/-- The `System::run` fragment that reacts to the result of
`Peers::update`: when the controller returned survivors, index
`used_peers[0]` (panicking on an empty list), `unwrap` that peer's
snapshot (panicking when absent — both panics are the outer `none`),
and publish the bumped system snapshot; with no survivors nothing is
published (inner `none`). -/
def system_publish (accumulated_threshold : Option Int) (peers : PeerTable)
    (system : SystemSnapshot) (result : Option (List Nat × TimeSnapshot)) :
    Option (Option SystemSnapshot) :=
  match result with
  | none => some none
  | some (used_peers, timedata) =>
    match used_peers with
    | [] => none
    | i :: _ =>
      match peer_snapshot peers i with
      | none => none
      | some sn =>
        some (some { system with
          time_snapshot := timedata
          stratum := u8_saturating_add sn.stratum 1
          reference_id := sn.reference_id
          accumulated_steps_threshold := accumulated_threshold })

/-- C8: when `Peers::update` returns survivors, the published system
snapshot's stratum is the first used peer's snapshot stratum
saturating-incremented by 1 (a stratum-255 peer yields 255, not 0) and
its reference id is copied from that peer's snapshot. -/
theorem c8_publish_stratum_reference (accumulated_threshold : Option Int)
    (peers : PeerTable) (system : SystemSnapshot) (used_peers : List Nat)
    (timedata : TimeSnapshot) (i : Nat) (rest : List Nat) (sn : PeerSnapshot)
    (hu : used_peers = i :: rest)
    (hsn : peer_snapshot peers i = some sn) :
    system_publish accumulated_threshold peers system
        (some (used_peers, timedata)) =
      some (some { system with
        time_snapshot := timedata
        stratum := u8_saturating_add sn.stratum 1
        reference_id := sn.reference_id
        accumulated_steps_threshold := accumulated_threshold }) ∧
    u8_saturating_add sn.stratum 1 = min (sn.stratum + 1) 255 ∧
    (sn.stratum = 255 → u8_saturating_add sn.stratum 1 = 255) := by
  subst hu
  refine ⟨?_, rfl, ?_⟩
  · simp [system_publish, hsn]
  · intro h255
    simp [u8_saturating_add, h255]

/-- Witness for C8 at a concrete table holding one stratum-255 peer. -/
theorem c8_publish_stratum_reference_witness :
    system_publish (some 7)
        [(0, { snapshot := some { reach := 1, stratum := 255,
                                  leap := .NoWarning, reference_id := 42 },
               peer_address := .Peer "a" })]
        { time_snapshot := ⟨0, 0, 0, 0, .NoWarning⟩, stratum := 16,
          reference_id := 0, accumulated_steps_threshold := none }
        (some ([0], ⟨1, 2, 3, 4, .NoWarning⟩)) =
      some (some { time_snapshot := ⟨1, 2, 3, 4, .NoWarning⟩, stratum := 255,
                   reference_id := 42,
                   accumulated_steps_threshold := some 7 }) :=
  (c8_publish_stratum_reference (some 7)
    [(0, { snapshot := some { reach := 1, stratum := 255,
                              leap := .NoWarning, reference_id := 42 },
           peer_address := .Peer "a" })]
    { time_snapshot := ⟨0, 0, 0, 0, .NoWarning⟩, stratum := 16,
      reference_id := 0, accumulated_steps_threshold := none }
    [0] ⟨1, 2, 3, 4, .NoWarning⟩ 0 []
    { reach := 1, stratum := 255, leap := .NoWarning, reference_id := 42 }
    rfl (by rfl)).1

/-- C10: `Peers::update` panics (via `unwrap` on the missing table entry)
exactly when a `NewMeasurement`, `UpdatedSnapshot` or `NetworkIssue`
message carries an index absent from the peer table; under the
precondition that the index is present, the panic branch is
unreachable. -/
theorem c10_update_requires_index (controller_measurement :
      Nat → Measurement → NtpPacket → Option (List Nat × TimeSnapshot))
    (peers : PeerTable) (msg : MsgForSystem)
    (hreq : msg.requiresEntry = true) :
    Peers.update controller_measurement peers msg = none ↔
      lookupPeer peers msg.index = none := by
  rcases msg with i | i | ⟨i, sn, m, pkt⟩ | ⟨i, sn⟩
  · simp [MsgForSystem.requiresEntry] at hreq
  all_goals
    simp only [Peers.update, MsgForSystem.index]
  all_goals
    cases h : lookupPeer peers i <;> simp [h]

/-- Witness for C10: an `UpdatedSnapshot` for index 5 against an empty
peer table panics. -/
theorem c10_update_requires_index_witness :
    Peers.update (fun _ _ _ => none) []
        (.UpdatedSnapshot 5 { reach := 0, stratum := 2, leap := .NoWarning,
                              reference_id := 0 }) = none :=
  (c10_update_requires_index (fun _ _ _ => none) []
    (.UpdatedSnapshot 5 { reach := 0, stratum := 2, leap := .NoWarning,
                          reference_id := 0 }) rfl).mpr rfl

/-! ## PPS fusion: `ntp-proto/src/algorithm/kalman/combine_with_pps.rs`

The Kalman state is a 2-vector and 2×2 matrix of `f64`; the embedding
uses `ℚ`, which supports all operations the function performs (floor,
ceil, abs, min, +, −).  The claim proved here (length, alternation and
field preservation) does not depend on the numeric values computed. -/

/-- The Kalman 2-vector (`Vector<2>`), entries `ventry 0` / `ventry 1`. -/
structure Vector2 where
  v0 : ℚ
  v1 : ℚ
deriving DecidableEq, Repr

/-- The Kalman 2×2 matrix (`Matrix<2, 2>`), entries `entry i j`. -/
structure Matrix22 where
  e00 : ℚ
  e01 : ℚ
  e10 : ℚ
  e11 : ℚ
deriving DecidableEq, Repr

/-- Source `SourceSnapshot<Index>` of the kalman module (fields as read
and written by `combine_with_pps.rs`; the defining `mod.rs` is not among
the provided sources, its field list is reproduced from the literal
built at the end of `combine_sources`). -/
structure SourceSnapshot (Index : Type) where
  index : Index
  state : Vector2
  uncertainty : Matrix22
  delay : ℚ
  source_uncertainty : Int
  source_delay : Int
  leap_indicator : NtpLeapIndicator
  last_update : Nat

namespace SourceSnapshot

/-- Modelled from the spec: the snapshot's offset is entry 0 of its state
vector (the accessor is defined in the kalman module, which is not among
the provided sources). -/
def offset {I : Type} (s : SourceSnapshot I) : ℚ :=
  s.state.v0

/-- Modelled from the spec: the snapshot's offset uncertainty, read from
entry (0,0) of its uncertainty matrix.  The accessor is defined in the
kalman module, which is not among the provided sources (implementations
take a square root here, which `ℚ` lacks; none of the claims proved
below depend on this value). -/
def offset_uncertainty {I : Type} (s : SourceSnapshot I) : ℚ :=
  s.uncertainty.e00

/-- The snapshot's state vector (`get_state_vector`). -/
def get_state_vector {I : Type} (s : SourceSnapshot I) : Vector2 :=
  s.state

/-- The snapshot's uncertainty matrix (`get_uncertainty_matrix`). -/
def get_uncertainty_matrix {I : Type} (s : SourceSnapshot I) : Matrix22 :=
  s.uncertainty

end SourceSnapshot

/-- Source `combine_sources`: snap the other source's offset to the
nearest-fitting whole-second boundary adjusted by the PPS sub-second
offset, keeping every other field of the other snapshot. -/
def combine_sources {I : Type} (pps_snapshot other_snapshot : SourceSnapshot I) :
    SourceSnapshot I :=
  let pps_offset := pps_snapshot.offset
  let pps_offset_uncertainty := pps_snapshot.offset_uncertainty
  let other_offset := other_snapshot.offset
  let other_offset_uncertainty := other_snapshot.offset_uncertainty
  let full_second_floor : ℚ := (⌊other_offset⌋ : Int)
  let full_second_ceil : ℚ := (⌈other_offset⌉ : Int)
  let pps_floor_positive := full_second_floor + pps_offset
  let pps_floor_negative := full_second_floor - pps_offset
  let pps_ceil_positive := full_second_ceil + pps_offset
  let pps_ceil_negative := full_second_ceil - pps_offset
  let other_minimum := other_offset - other_offset_uncertainty
  let other_maximum := other_offset + other_offset_uncertainty
  let floor_positive_diff := |pps_floor_positive - other_minimum|
  let floor_negative_diff := |pps_floor_negative - other_minimum|
  let ceil_positive_diff := |pps_ceil_positive - other_maximum|
  let ceil_negative_diff := |pps_ceil_negative - other_maximum|
  let min_diff :=
    min (min (min floor_positive_diff floor_negative_diff) ceil_positive_diff)
      ceil_negative_diff
  let new_offset :=
    if min_diff = floor_positive_diff then pps_floor_positive
    else if min_diff = floor_negative_diff then pps_floor_negative
    else if min_diff = ceil_positive_diff then pps_ceil_positive
    else pps_ceil_negative
  { index := other_snapshot.index
    state := { v0 := new_offset, v1 := other_snapshot.get_state_vector.v1 }
    uncertainty := { e00 := pps_offset_uncertainty
                     e01 := other_snapshot.get_uncertainty_matrix.e01
                     e10 := other_snapshot.get_uncertainty_matrix.e10
                     e11 := other_snapshot.get_uncertainty_matrix.e11 }
    delay := other_snapshot.delay
    source_uncertainty := other_snapshot.source_uncertainty
    source_delay := other_snapshot.source_delay
    leap_indicator := other_snapshot.leap_indicator
    last_update := other_snapshot.last_update }

/-- Source `combine_with_pps`: the loop pushing each candidate followed
by its PPS-combined version, written as the equivalent `foldl` over the
accumulated results vector. -/
def combine_with_pps {I : Type} (pps : SourceSnapshot I)
    (candidates : List (SourceSnapshot I)) : List (SourceSnapshot I) :=
  candidates.foldl
    (fun results snapshot => results ++ [snapshot, combine_sources pps snapshot])
    []

/-- Folding the loop body starting from any accumulator prepends it. -/
theorem combine_with_pps_foldl_acc {I : Type} (pps : SourceSnapshot I)
    (candidates : List (SourceSnapshot I)) (acc : List (SourceSnapshot I)) :
    candidates.foldl
        (fun results snapshot =>
          results ++ [snapshot, combine_sources pps snapshot]) acc =
      acc ++ combine_with_pps pps candidates := by
  induction candidates generalizing acc with
  | nil => simp [combine_with_pps]
  | cons s rest ih =>
    simp only [combine_with_pps, List.foldl_cons, List.nil_append]
    rw [ih, ih [s, combine_sources pps s], List.append_assoc]

/-- Unfolding `combine_with_pps` one candidate at a time. -/
theorem combine_with_pps_cons {I : Type} (pps s : SourceSnapshot I)
    (rest : List (SourceSnapshot I)) :
    combine_with_pps pps (s :: rest) =
      s :: combine_sources pps s :: combine_with_pps pps rest := by
  simp only [combine_with_pps, List.foldl_cons, List.nil_append]
  rw [combine_with_pps_foldl_acc]
  rfl

/-- C9: for a candidate list of length N, `combine_with_pps` returns
exactly 2N snapshots alternating original and PPS-combined — element 2i
is candidate i unchanged, element 2i+1 is `combine_sources` of the PPS
snapshot with candidate i — and `combine_sources` keeps the candidate's
index, delay, source_uncertainty, source_delay, leap_indicator and
last_update. -/
theorem c9_combine_with_pps_shape {I : Type} (pps : SourceSnapshot I)
    (candidates : List (SourceSnapshot I)) :
    ((combine_with_pps pps candidates).length = 2 * candidates.length) ∧
    (∀ i, (h : i < candidates.length) →
      (combine_with_pps pps candidates)[2 * i]? = some candidates[i] ∧
      (combine_with_pps pps candidates)[2 * i + 1]? =
        some (combine_sources pps candidates[i])) ∧
    (∀ s : SourceSnapshot I,
      (combine_sources pps s).index = s.index ∧
      (combine_sources pps s).delay = s.delay ∧
      (combine_sources pps s).source_uncertainty = s.source_uncertainty ∧
      (combine_sources pps s).source_delay = s.source_delay ∧
      (combine_sources pps s).leap_indicator = s.leap_indicator ∧
      (combine_sources pps s).last_update = s.last_update) := by
  refine ⟨?_, ?_, ?_⟩
  · induction candidates with
    | nil => rfl
    | cons s rest ih =>
      rw [combine_with_pps_cons]
      simp only [List.length_cons, ih]
      omega
  · induction candidates with
    | nil =>
      intro i h
      simp at h
    | cons s rest ih =>
      intro i h
      cases i with
      | zero =>
        rw [combine_with_pps_cons]
        refine ⟨?_, ?_⟩ <;> simp
      | succ n =>
        have hn : n < rest.length := by
          simpa using Nat.lt_of_succ_lt_succ h
        have hrec := ih n hn
        rw [combine_with_pps_cons]
        have h2 : 2 * (n + 1) = 2 * n + 1 + 1 := by omega
        have h3 : 2 * (n + 1) + 1 = (2 * n + 1) + 1 + 1 := by omega
        constructor
        · rw [h2]
          simpa using hrec.1
        · rw [h3]
          simpa using hrec.2
  · intro s
    exact ⟨rfl, rfl, rfl, rfl, rfl, rfl⟩

/-- Witness for C9 instantiating the alternation at a concrete
two-candidate list, index 1. -/
theorem c9_combine_with_pps_shape_witness :
    (combine_with_pps ⟨0, ⟨1, 0⟩, ⟨1, 0, 0, 1⟩, 0, 0, 0, .NoWarning, 0⟩
        [⟨1, ⟨(6 : ℚ) / 5, 0⟩, ⟨1, 0, 0, 1⟩, 2, 3, 4, .NoWarning, 5⟩,
         ⟨2, ⟨(7 : ℚ) / 5, 0⟩, ⟨1, 0, 0, 1⟩, 6, 7, 8, .Leap59, 9⟩])[2 * 1]? =
      some ⟨2, ⟨(7 : ℚ) / 5, 0⟩, ⟨1, 0, 0, 1⟩, 6, 7, 8, .Leap59, 9⟩ :=
  ((c9_combine_with_pps_shape (I := Nat)
    ⟨0, ⟨1, 0⟩, ⟨1, 0, 0, 1⟩, 0, 0, 0, .NoWarning, 0⟩
    [⟨1, ⟨(6 : ℚ) / 5, 0⟩, ⟨1, 0, 0, 1⟩, 2, 3, 4, .NoWarning, 5⟩,
     ⟨2, ⟨(7 : ℚ) / 5, 0⟩, ⟨1, 0, 0, 1⟩, 6, 7, 8, .Leap59, 9⟩]).2.1 1
    (by decide)).1
